import Mathlib

/-!
A shallow embedding of the `@randlabs/js-logger` logging facility
(`src/index.ts`): the data model (levels, per-call options, configuration),
the per-call silencing computation (`updateSilentSettings`), the dispatch
entry point (`notify`) with its worker-forwarding branch, the level wrappers
(`error`, `warn`, `info`, `debug`), and the `initialize` / `finalize`
lifecycle over explicit process-wide state.

JavaScript module globals become fields of a `LoggerState` record that every
operation threads explicitly.  Sinks (winston transports) are modelled as the
spec's "Sink" collaborator: a `silent` flag plus the list of messages written.
Console output (`console.log`) and the cluster channel (`process.send`) are
modelled as output lists in the state.
-/

namespace JsLogger

/-- The four log levels (`export type level` in src/index.ts). -/
inductive Level
  | error
  | warn
  | info
  | debug
deriving DecidableEq, Repr, Fintype

/-- Per-call silencing options (`LogNotifyOptions` in src/index.ts).  An
absent JS field is modelled as `false`, which matches how the source reads
the fields (plain truthiness tests). -/
structure LogNotifyOptions where
  noConsole : Bool := false
  noFile : Bool := false
  noSysLog : Bool := false
  onlyConsole : Bool := false
  onlyFile : Bool := false
  onlySysLog : Bool := false
deriving DecidableEq, Repr, Fintype

/-- Modelled from the spec: a winston transport as this library sees it — a
"Sink" collaborator carrying the per-call `silent` flag the code stores on it
and the list of `(level, message)` writes it has accepted.  A transport whose
`silent` flag is set drops writes (winston-transport behavior). -/
structure Sink where
  silent : Bool := false
  written : List (Level × String) := []
deriving DecidableEq, Repr

/-- The message a worker posts over the cluster channel (src/index.ts
400-406).  `msgType` models the `type` field, always `LOG_REQUEST`. -/
structure ChannelMessage where
  msgType : String
  level : Level
  message : String
  options : LogNotifyOptions
deriving DecidableEq, Repr

/-- The module-global state of src/index.ts (lines 52-59), together with the
observable outputs: `stdout` collects `console.log` fallback lines and `sent`
collects messages posted through `process.send`.  `logger` records whether
`winston.createLogger` was called (the `logger` global being non-null);
`clusterIsMaster` records `loadCluster().isMaster` of the loaded cluster
module; `fileHasLogStream` models the `logStream` field `finalize` probes on
the file transport; the `syslog*` scalar fields record the configuration the
syslog transport was created with. -/
structure LoggerState where
  debugLevel : Int := 0
  logger : Bool := false
  consoleTransport : Option Sink := none
  fileTransport : Option Sink := none
  syslogTransport : Option Sink := none
  syslogSendInfoNotifications : Bool := false
  cluster : Bool := false
  clusterIsMaster : Bool := true
  actingAsWorker : Bool := false
  fileHasLogStream : Bool := false
  syslogHost : String := ""
  syslogPort : Int := 0
  syslogProtocol : String := ""
  syslogType : String := ""
  stdout : List String := []
  sent : List ChannelMessage := []
deriving DecidableEq, Repr

/-- The fresh, uninitialized module state. -/
def initialState : LoggerState := {}

/-- `LOG_REQUEST` (src/index.ts line 13). -/
def LOG_REQUEST : String := "RANDLABS:JS:LOGGER:log"

/-- The three per-call silence flags. -/
structure SilenceFlags where
  silentConsole : Bool
  silentFile : Bool
  silentSysLog : Bool
deriving DecidableEq, Repr

/-- The flag computation at the head of `updateSilentSettings` (src/index.ts
430-459): all three flags start `false`; an `only*` flag (in the fixed order
console, file, sysLog) silences the other two; otherwise each `no*` flag sets
exactly its own flag.  A present options object whose fields are all absent
behaves like no options at all, so `none` and `some {}` agree. -/
def silentFlagsOf (options : Option LogNotifyOptions) : SilenceFlags :=
  match options with
  | none => ⟨false, false, false⟩
  | some o =>
    if o.onlyConsole then ⟨false, true, true⟩
    else if o.onlyFile then ⟨true, false, true⟩
    else if o.onlySysLog then ⟨true, true, false⟩
    else ⟨o.noConsole, o.noFile, o.noSysLog⟩

/-- Store a silence flag on a transport, when the transport is present
(src/index.ts 461-469). -/
def setSilent (b : Bool) : Option Sink → Option Sink
  | none => none
  | some s => some { s with silent := b }

/-- `updateSilentSettings(options, enforceSysLogSilence)` (src/index.ts
430-472): computes the per-call flags, stores them on the present transports
— the syslog transport receives `true` whenever `enforceSysLogSilence` is set
— and returns `silentConsole`. -/
def updateSilentSettings (options : Option LogNotifyOptions)
    (enforceSysLogSilence : Bool) (st : LoggerState) : LoggerState × Bool :=
  let f := silentFlagsOf options
  ({ st with
      consoleTransport := setSilent f.silentConsole st.consoleTransport
      fileTransport := setSilent f.silentFile st.fileTransport
      syslogTransport :=
        setSilent (if !enforceSysLogSilence then f.silentSysLog else true)
          st.syslogTransport },
    f.silentConsole)

/-- The `enforceSysLogSilence` argument `notify` passes to
`updateSilentSettings` for each level (src/index.ts lines 363, 372, 381,
390): `false` for error and warn, the negated global
`syslogSendInfoNotifications` flag for info, `true` for debug. -/
def enforceSysLogSilenceFor (lvl : Level) (sendInfoNotifications : Bool) : Bool :=
  match lvl with
  | .error => false
  | .warn => false
  | .info => !sendInfoNotifications
  | .debug => true

/-- The silence flags the code ends up storing on the transports for one
call: the `updateSilentSettings` computation with the level-dependent
enforce argument — a pure function of the call's options, the level and the
global `sendInfoNotifications` flag. -/
def resolveSilence (options : Option LogNotifyOptions) (lvl : Level)
    (sendInfoNotifications : Bool) : SilenceFlags :=
  let f := silentFlagsOf options
  { f with
      silentSysLog :=
        if !enforceSysLogSilenceFor lvl sendInfoNotifications then f.silentSysLog
        else true }

/-- The silencing resolution as the spec words it (§4.2): start all three
flags false; if `onlyConsole` is set silence file and sysLog, else if
`onlyFile` silence console and sysLog, else if `onlySysLog` silence console
and file, else apply each `no*` flag independently; then for level `info`
force `silentSysLog` whenever the global flag is off, and for level `debug`
force `silentSysLog` unconditionally. -/
def resolveSilenceSpec (options : Option LogNotifyOptions) (lvl : Level)
    (globalInfoFlag : Bool) : SilenceFlags :=
  let step2 : SilenceFlags :=
    match options with
    | none => ⟨false, false, false⟩
    | some o =>
      if o.onlyConsole then ⟨false, true, true⟩
      else if o.onlyFile then ⟨true, false, true⟩
      else if o.onlySysLog then ⟨true, true, false⟩
      else ⟨o.noConsole, o.noFile, o.noSysLog⟩
  match lvl with
  | .info => if !globalInfoFlag then { step2 with silentSysLog := true } else step2
  | .debug => { step2 with silentSysLog := true }
  | _ => step2

/-- The tag `notify` puts in front of a fallback `console.log` line
(src/index.ts 368, 377, 386, 395). -/
def levelTag : Level → String
  | .error => "[ERROR] "
  | .warn => "[WARN] "
  | .info => "[INFO] "
  | .debug => "[DEBUG] "

/-- Modelled from the spec: a write through the winston logger reaches each
configured transport (the logger is created at level `debug`, so every level
passes the level filter); a transport whose `silent` flag is set drops the
message. -/
def transportWrite (lvl : Level) (message : String) : Option Sink → Option Sink
  | none => none
  | some s =>
    some { s with written := if s.silent then s.written else s.written ++ [(lvl, message)] }

/-- A `logger.error/warn/info/debug(message)` call: fan the message out to
the three (possibly absent) transports. -/
def loggerWrite (lvl : Level) (message : String) (st : LoggerState) : LoggerState :=
  { st with
      consoleTransport := transportWrite lvl message st.consoleTransport
      fileTransport := transportWrite lvl message st.fileTransport
      syslogTransport := transportWrite lvl message st.syslogTransport }

/-- `notify(type, message, options?)` (src/index.ts 358-407).  On a
non-worker process: resolve the per-call silence flags (with the
level-dependent enforce argument), write through the logger when one exists,
otherwise fall back to a level-tagged `console.log` line unless the console
was silenced.  On a worker: post `{type: LOG_REQUEST, level, message,
options}` over the cluster channel — options defaulted to `{}` — and touch
nothing locally.  The source spells the four levels out as separate branches
passing `false`, `false`, `!syslogSendInfoNotifications` and `true` for
`enforceSysLogSilence`; `enforceSysLogSilenceFor` captures exactly that. -/
def notify (type : Level) (message : String) (options : Option LogNotifyOptions)
    (st : LoggerState) : LoggerState :=
  if !st.actingAsWorker then
    let p := updateSilentSettings options
      (enforceSysLogSilenceFor type st.syslogSendInfoNotifications) st
    let st1 := p.1
    let silentConsole := p.2
    if st1.logger then
      loggerWrite type message st1
    else if !silentConsole then
      { st1 with stdout := st1.stdout ++ [levelTag type ++ message] }
    else
      st1
  else
    { st with
        sent := st.sent ++
          [{ msgType := LOG_REQUEST, level := type, message := message,
             options := options.getD {} }] }

/-- `error(message, options?)` (src/index.ts 409-411). -/
def error (message : String) (options : Option LogNotifyOptions)
    (st : LoggerState) : LoggerState :=
  notify .error message options st

/-- `warn(message, options?)` (src/index.ts 413-415). -/
def warn (message : String) (options : Option LogNotifyOptions)
    (st : LoggerState) : LoggerState :=
  notify .warn message options st

/-- `info(message, options?)` (src/index.ts 417-419). -/
def info (message : String) (options : Option LogNotifyOptions)
    (st : LoggerState) : LoggerState :=
  notify .info message options st

/-- `debug(level, message, options?)` (src/index.ts 421-425): forward to
`notify` only when `0 < level <= debugLevel`, otherwise do nothing at all. -/
def debug (level : Int) (message : String) (options : Option LogNotifyOptions)
    (st : LoggerState) : LoggerState :=
  if level > 0 ∧ level ≤ st.debugLevel then notify .debug message options st else st

/-- `setDebugLevel(newLevel)` (src/index.ts 352-356). -/
def setDebugLevel (newLevel : Int) (st : LoggerState) : LoggerState :=
  if newLevel ≥ 0 then { st with debugLevel := newLevel } else st

/-- The master-side cluster listener installed by initialize (src/index.ts
278-284): a channel message whose `type` is `LOG_REQUEST` re-enters `notify`
locally with the carried level, message and options. -/
def handleClusterMessage (m : ChannelMessage) (st : LoggerState) : LoggerState :=
  if m.msgType = LOG_REQUEST then notify m.level m.message (some m.options) st else st

/-- The transport completion signals `finalize` awaits before resolving:
the file transport's `finish` event (listened for only when the transport
has a `logStream`) and the syslog transport's `closed` event. -/
inductive CloseSignal
  | fileFinish
  | syslogClosed
deriving DecidableEq, Repr

/-- `finalize()` (src/index.ts 296-350): the state once the returned promise
resolves, paired with the completion signals resolution awaited.  When a
logger exists, `done()` nulls the logger, the three transports, the cluster
module and the worker flag — and nothing else; the promise resolves after
`Promise.allSettled` of the registered transport-close listeners (an empty
list resolves at once).  When no logger exists, only the cluster module and
the worker flag are cleared and the promise resolves immediately.  No path
rejects. -/
def finalize (st : LoggerState) : LoggerState × List CloseSignal :=
  if st.logger then
    ({ st with
        logger := false
        consoleTransport := none
        fileTransport := none
        syslogTransport := none
        cluster := false
        actingAsWorker := false },
      (if st.fileTransport.isSome ∧ st.fileHasLogStream then [CloseSignal.fileFinish] else [])
        ++ (if st.syslogTransport.isSome then [CloseSignal.syslogClosed] else []))
  else
    ({ st with cluster := false, actingAsWorker := false }, [])

/-- `FileLogOptions` (src/index.ts 28-31), with numbers as integers (the
source additionally rejects non-integral numbers via a `% 1` test, which the
integer model cannot express). -/
structure FileLogOptions where
  dir : Option String := none
  daysToKeep : Option Int := none
deriving DecidableEq, Repr

/-- `SysLogOptions` (src/index.ts 33-39). -/
structure SysLogOptions where
  host : Option String := none
  port : Option Int := none
  transport : Option String := none
  protocol : Option String := none
  sendInfoNotifications : Bool := false
deriving DecidableEq, Repr

/-- `toLowerCase()` as the source applies it to the `transport` and
`protocol` option strings: ASCII lower-casing of every character, written by
structural recursion over the string's characters so that it computes inside
the kernel. -/
def lowerString (s : String) : String :=
  ⟨s.data.map Char.toLower⟩

/-- `Options` (src/index.ts 19-26). -/
structure Options where
  appName : String
  disableConsoleLog : Bool := false
  fileLog : Option FileLogOptions := none
  sysLog : Option SysLogOptions := none
  debugLevel : Option Int := none
  usingClusters : Bool := false
deriving DecidableEq, Repr

/-- The file-transport branch of initialize (src/index.ts 106-162).  The log
directory computation (platform-specific default, separator normalization) is
a collaborator concern no claim touches and is not recorded; the
dynamic-type rejections (`fileLog` not an object, truthy non-string `dir`)
are unrepresentable in the typed model.  The `daysToKeep` range check runs
only when the value is truthy — a configured `0` skips it, exactly as
`if (options.fileLog.daysToKeep)` does — and rejects outside `[0, 30]`. -/
def initFileLog (fl : FileLogOptions) (st : LoggerState) : LoggerState × Option String :=
  match fl.daysToKeep with
  | some d =>
    if d ≠ 0 ∧ (d < 0 ∨ d > 30) then (st, some "Logger: Invalid days to keep value.")
    else ({ st with fileTransport := some {}, fileHasLogStream := true }, none)
  | none => ({ st with fileTransport := some {}, fileHasLogStream := true }, none)

/-- The syslog-transport branch of initialize (src/index.ts 165-266).  Note
that the source guards `transport`, `host` and `protocol` with
`typeof x !== null` / `typeof x != null` — conditions that are always true —
so an absent `transport`, `host` or `protocol` rejects; only `port` uses the
value-level `!= null` test and may be absent.  A supplied port rejects
outside `[0, 65535]`; a port of `0` is kept out of the client options by the
`port != 0` guard, leaving the transport-derived default (514 for udp, 1468
for tcp, 6514 for tls).  `initSysLogProtocol` is the tail of the branch: the
`protocol` switch and the transport creation (src/index.ts 225-265). -/
def initSysLogProtocol (sl : SysLogOptions) (port : Int) (protocol h : String)
    (st : LoggerState) : LoggerState × Option String :=
  match sl.protocol with
  | none => (st, some "Logger: Invalid syslog protocol option.")
  | some pr =>
    let prl := lowerString pr
    if prl = "bsd" ∨ prl = "3164" ∨ prl = "rfc3164" then
      ({ st with
          syslogTransport := some {}
          syslogHost := h, syslogPort := port
          syslogProtocol := protocol, syslogType := "BSD"
          syslogSendInfoNotifications := sl.sendInfoNotifications }, none)
    else if prl = "5424" ∨ prl = "rfc5424" then
      ({ st with
          syslogTransport := some {}
          syslogHost := h, syslogPort := port
          syslogProtocol := protocol, syslogType := "5424"
          syslogSendInfoNotifications := sl.sendInfoNotifications }, none)
    else (st, some "Logger: Invalid syslog protocol option.")

def initSysLog (sl : SysLogOptions) (st : LoggerState) : LoggerState × Option String :=
  match sl.transport with
  | none => (st, some "Logger: Invalid syslog transport option.")
  | some tr =>
    let tl := lowerString tr
    if tl = "udp" ∨ tl = "tcp" ∨ tl = "tls" then
      let protocol : String := tl
      let defaultPort : Int := if tl = "tcp" then 1468 else if tl = "tls" then 6514 else 514
      match sl.host with
      | none => (st, some "Logger: Invalid syslog host option.")
      | some h =>
        if h = "" then (st, some "Logger: Invalid syslog host option.")
        else
          match sl.port with
          | some p =>
            if p < 0 ∨ p > 65535 then (st, some "Logger: Invalid syslog port option.")
            else
              initSysLogProtocol sl (if p ≠ 0 then p else defaultPort) protocol h st
          | none => initSysLogProtocol sl defaultPort protocol h st
    else (st, some "Logger: Invalid syslog transport option.")

/-- The debug-threshold assignment at the head of initialize (src/index.ts
80-82): a supplied non-negative `debugLevel` is stored, anything else is
ignored. -/
def initDebugLevel (options : Options) (st : LoggerState) : LoggerState :=
  match options.debugLevel with
  | some d => if d ≥ 0 then { st with debugLevel := d } else st
  | none => st

/-- The cluster-module load (src/index.ts 84-86): `usingClusters` loads the
host cluster facility, whose `isMaster` bit is environmental. -/
def initCluster (options : Options) (isMaster : Bool) (st : LoggerState) : LoggerState :=
  if options.usingClusters then { st with cluster := true, clusterIsMaster := isMaster }
  else st

/-- The console-transport creation (src/index.ts 92-103): unless disabled,
a fresh console transport is assigned to the module global. -/
def initConsole (options : Options) (st : LoggerState) : LoggerState :=
  if !options.disableConsoleLog then { st with consoleTransport := some {} } else st

/-- `initialize(options)` (src/index.ts 63-294), named `initializeLogger`
here.  Returns the new module state together with the rejection message, if
any: the source mutates the module globals step by step and rejects mid-way
without rollback, so a failed call returns the partially-updated state.
`isMaster` stands for `loadCluster().isMaster` of the host cluster facility.
On the master (or unclustered) path the console transport is created first,
then the file branch, then the syslog branch; the winston logger is created
exactly when this call pushed at least one transport.  The worker path only
sets `actingAsWorker` and never rejects. -/
def initializeLogger (options : Options) (isMaster : Bool) (st : LoggerState) :
    LoggerState × Option String :=
  if options.appName = "" then
    (st, some "Logger: Application name not set or invalid.")
  else if !(initCluster options isMaster (initDebugLevel options st)).cluster
      || (initCluster options isMaster (initDebugLevel options st)).clusterIsMaster then
    match (match options.fileLog with
           | some fl => initFileLog fl
               (initConsole options (initCluster options isMaster (initDebugLevel options st)))
           | none => (initConsole options
               (initCluster options isMaster (initDebugLevel options st)), none)) with
    | (st1, some e) => (st1, some e)
    | (st1, none) =>
      match (match options.sysLog with
             | some sl => initSysLog sl st1
             | none => (st1, none)) with
      | (st2, some e) => (st2, some e)
      | (st2, none) =>
        (if !options.disableConsoleLog ∨ options.fileLog.isSome
            ∨ options.sysLog.isSome then
          { st2 with logger := true }
         else st2, none)
  else
    ({ initCluster options isMaster (initDebugLevel options st) with
        actingAsWorker := true }, none)

/-! ### Helper notions and lemmas -/

/-- The messages a (possibly absent) transport has written. -/
def writtenOf : Option Sink → List (Level × String)
  | none => []
  | some s => s.written

/-- Store a full set of per-call silence flags on the present transports. -/
def applySilence (f : SilenceFlags) (st : LoggerState) : LoggerState :=
  { st with
      consoleTransport := setSilent f.silentConsole st.consoleTransport
      fileTransport := setSilent f.silentFile st.fileTransport
      syslogTransport := setSilent f.silentSysLog st.syslogTransport }

theorem resolveSilence_silentConsole (o : Option LogNotifyOptions) (lvl : Level)
    (g : Bool) : (resolveSilence o lvl g).silentConsole = (silentFlagsOf o).silentConsole := rfl

theorem resolveSilence_silentFile (o : Option LogNotifyOptions) (lvl : Level)
    (g : Bool) : (resolveSilence o lvl g).silentFile = (silentFlagsOf o).silentFile := rfl

theorem updateSilentSettings_eq (o : Option LogNotifyOptions) (lvl : Level)
    (g : Bool) (st : LoggerState) :
    updateSilentSettings o (enforceSysLogSilenceFor lvl g) st =
      (applySilence (resolveSilence o lvl g) st, (silentFlagsOf o).silentConsole) := rfl

theorem writtenOf_setSilent (b : Bool) (t : Option Sink) :
    writtenOf (setSilent b t) = writtenOf t := by
  cases t <;> rfl

theorem writtenOf_transportWrite_setSilent (lvl : Level) (m : String) (b : Bool)
    (t : Option Sink) :
    writtenOf (transportWrite lvl m (setSilent b t)) =
      writtenOf t ++ (if t.isSome = true ∧ b = false then [(lvl, m)] else []) := by
  cases t <;> cases b <;> simp [setSilent, transportWrite, writtenOf]

theorem isSome_transportWrite (lvl : Level) (m : String) (t : Option Sink) :
    (transportWrite lvl m t).isSome = t.isSome := by
  cases t <;> rfl

theorem isSome_setSilent (b : Bool) (t : Option Sink) :
    (setSilent b t).isSome = t.isSome := by
  cases t <;> rfl

/-- On a non-worker process, `notify` in normal form: store the resolved
per-call silence flags, then either write through the logger or fall back to
a console line. -/
theorem notify_eq_master (lvl : Level) (m : String) (o : Option LogNotifyOptions)
    (st : LoggerState) (hw : st.actingAsWorker = false) :
    notify lvl m o st =
      (if st.logger then
        loggerWrite lvl m (applySilence (resolveSilence o lvl st.syslogSendInfoNotifications) st)
      else if (silentFlagsOf o).silentConsole = false then
        { applySilence (resolveSilence o lvl st.syslogSendInfoNotifications) st with
            stdout := st.stdout ++ [levelTag lvl ++ m] }
      else
        applySilence (resolveSilence o lvl st.syslogSendInfoNotifications) st) := by
  rw [notify]
  rw [updateSilentSettings_eq o lvl st.syslogSendInfoNotifications st]
  simp only [hw, Bool.not_false, if_true]
  by_cases hl : st.logger
  · simp [hl, applySilence]
  · simp only [Bool.not_eq_true] at hl
    by_cases hc : (silentFlagsOf o).silentConsole
    · simp [hl, hc, applySilence]
    · simp only [Bool.not_eq_true] at hc
      simp [hl, hc, applySilence]

/-- The full observable-output characterization of `notify` on a non-worker
process: each transport gains exactly the call's message when the logger
exists, the transport is present and the resolved per-call flags do not
silence it; the fallback console line appears exactly when no logger exists
and the per-call options do not silence the console; the cluster channel is
untouched. -/
theorem notify_writes (lvl : Level) (m : String) (o : Option LogNotifyOptions)
    (st : LoggerState) (hw : st.actingAsWorker = false) :
    writtenOf (notify lvl m o st).consoleTransport =
      writtenOf st.consoleTransport ++
        (if st.logger = true ∧ st.consoleTransport.isSome = true ∧
            (resolveSilence o lvl st.syslogSendInfoNotifications).silentConsole = false
          then [(lvl, m)] else []) ∧
    writtenOf (notify lvl m o st).fileTransport =
      writtenOf st.fileTransport ++
        (if st.logger = true ∧ st.fileTransport.isSome = true ∧
            (resolveSilence o lvl st.syslogSendInfoNotifications).silentFile = false
          then [(lvl, m)] else []) ∧
    writtenOf (notify lvl m o st).syslogTransport =
      writtenOf st.syslogTransport ++
        (if st.logger = true ∧ st.syslogTransport.isSome = true ∧
            (resolveSilence o lvl st.syslogSendInfoNotifications).silentSysLog = false
          then [(lvl, m)] else []) ∧
    (notify lvl m o st).stdout =
      st.stdout ++
        (if st.logger = false ∧ (silentFlagsOf o).silentConsole = false
          then [levelTag lvl ++ m] else []) ∧
    (notify lvl m o st).sent = st.sent := by
  rw [notify_eq_master lvl m o st hw]
  by_cases hl : st.logger
  · simp only [hl, if_true]
    refine ⟨?_, ?_, ?_, ?_, ?_⟩ <;>
      simp [loggerWrite, applySilence, writtenOf_transportWrite_setSilent, hl,
        resolveSilence_silentConsole, resolveSilence_silentFile]
  · simp only [Bool.not_eq_true] at hl
    by_cases hc : (silentFlagsOf o).silentConsole
    · simp [hl, hc, applySilence, writtenOf_setSilent]
    · simp only [Bool.not_eq_true] at hc
      simp [hl, hc, applySilence, writtenOf_setSilent]

/-- `notify` never changes the configuration part of the state: the logger
flag, transport presence, the global syslog-info flag, the worker flag and
the debug threshold all survive any call. -/
theorem notify_preserves_config (lvl : Level) (m : String)
    (o : Option LogNotifyOptions) (st : LoggerState) :
    (notify lvl m o st).logger = st.logger ∧
    (notify lvl m o st).consoleTransport.isSome = st.consoleTransport.isSome ∧
    (notify lvl m o st).fileTransport.isSome = st.fileTransport.isSome ∧
    (notify lvl m o st).syslogTransport.isSome = st.syslogTransport.isSome ∧
    (notify lvl m o st).syslogSendInfoNotifications = st.syslogSendInfoNotifications ∧
    (notify lvl m o st).actingAsWorker = st.actingAsWorker ∧
    (notify lvl m o st).debugLevel = st.debugLevel := by
  by_cases hw : st.actingAsWorker
  · simp [notify, hw]
  · simp only [Bool.not_eq_true] at hw
    rw [notify_eq_master lvl m o st hw]
    by_cases hl : st.logger <;>
      by_cases hc : (silentFlagsOf o).silentConsole = false <;>
        simp [hl, hc, loggerWrite, applySilence, isSome_transportWrite, isSome_setSilent]

theorem resolveSilence_debug_silentSysLog (o : Option LogNotifyOptions) (g : Bool) :
    (resolveSilence o .debug g).silentSysLog = true := by
  cases o <;> rfl

theorem resolveSilence_info_silentSysLog (o : Option LogNotifyOptions) :
    (resolveSilence o .info false).silentSysLog = true := by
  cases o <;> rfl

/-- A sample state: logger created with only a syslog transport and the
info-to-syslog flag off. -/
def stSyslogOnly : LoggerState :=
  { initialState with logger := true, syslogTransport := some {} }

/-- A sample state: logger created with all three transports present. -/
def stAllSinks : LoggerState :=
  { initialState with
      logger := true
      consoleTransport := some {}
      fileTransport := some {}
      syslogTransport := some {} }

/-- A sample state: uninitialized except for a debug threshold of 2. -/
def stThreshold2 : LoggerState :=
  { initialState with debugLevel := 2 }

/-! ### The claims -/

/-- **C1.** The per-call silencing resolution is a pure function of
(options, level, global sendInfoNotifications flag), computed exactly as the
claim states it (all flags start false; `onlyConsole` silences file and
sysLog, else `onlyFile` silences console and sysLog, else `onlySysLog`
silences console and file, else each `no*` flag sets its own; info forces
sysLog silence when the global flag is off, debug forces it always): the
code's resolution equals the spec-worded one on every input, and
consequently an info `notify` never extends the syslog sink's writes when
the global flag is off, and a debug `notify` never extends them at all. -/
theorem c1_silencing_resolution :
    (∀ (o : Option LogNotifyOptions) (lvl : Level) (g : Bool),
      resolveSilence o lvl g = resolveSilenceSpec o lvl g) ∧
    (∀ (o : Option LogNotifyOptions) (m : String) (st : LoggerState),
      writtenOf (notify .debug m o st).syslogTransport = writtenOf st.syslogTransport) ∧
    (∀ (o : Option LogNotifyOptions) (m : String) (st : LoggerState),
      st.syslogSendInfoNotifications = false →
      writtenOf (notify .info m o st).syslogTransport = writtenOf st.syslogTransport) := by
  refine ⟨by decide, ?_, ?_⟩
  · intro o m st
    by_cases hw : st.actingAsWorker
    · simp [notify, hw]
    · simp only [Bool.not_eq_true] at hw
      have h := (notify_writes .debug m o st hw).2.2.1
      simpa [resolveSilence_debug_silentSysLog] using h
  · intro o m st hg
    by_cases hw : st.actingAsWorker
    · simp [notify, hw]
    · simp only [Bool.not_eq_true] at hw
      have h := (notify_writes .info m o st hw).2.2.1
      rw [hg] at h
      simpa [resolveSilence_info_silentSysLog] using h

/-- Witness for C1: a concrete info call against a present syslog sink with
the global flag off leaves the sink's writes untouched. -/
theorem c1_silencing_resolution_witness :
    writtenOf (notify .info "hello" none stSyslogOnly).syslogTransport =
      writtenOf stSyslogOnly.syslogTransport :=
  c1_silencing_resolution.2.2 none "hello" stSyslogOnly rfl

/-- **C2.** `debug(rank, text)` hands the message to `notify` with level
debug exactly when `0 < rank ≤ debugLevel`; otherwise the state is returned
unchanged — no sink is touched and the silencing policy is never evaluated. -/
theorem c2_debug_gating (rank : Int) (m : String) (o : Option LogNotifyOptions)
    (st : LoggerState) :
    (0 < rank ∧ rank ≤ st.debugLevel → debug rank m o st = notify .debug m o st) ∧
    (¬(0 < rank ∧ rank ≤ st.debugLevel) → debug rank m o st = st) := by
  constructor <;> intro h <;> simp [debug, h]

/-- Witness for C2: with threshold 2, rank 1 is delivered through `notify`
and rank 3 (and rank 0) leave the state untouched. -/
theorem c2_debug_gating_witness :
    debug 1 "m" none stThreshold2 = notify .debug "m" none stThreshold2 ∧
    debug 3 "m" none stThreshold2 = stThreshold2 ∧
    debug 0 "m" none stThreshold2 = stThreshold2 :=
  ⟨(c2_debug_gating 1 "m" none stThreshold2).1 (by decide),
   (c2_debug_gating 3 "m" none stThreshold2).2 (by decide),
   (c2_debug_gating 0 "m" none stThreshold2).2 (by decide)⟩

/-- **C6.** `finalize` always resolves (the model returns the post-resolution
state for every input, mirroring the source's reject-free promise): when no
logger exists it resolves immediately, clearing only the cluster module and
the worker flag and awaiting no sink signal; and a second `finalize` after a
completed one resolves immediately with no effect (idempotence). -/
theorem c6_finalize_resolves (st : LoggerState) :
    (st.logger = false →
      finalize st = ({ st with cluster := false, actingAsWorker := false }, [])) ∧
    finalize (finalize st).1 = ((finalize st).1, []) := by
  constructor
  · intro h
    simp [finalize, h]
  · by_cases h : st.logger <;> simp [finalize, h]

/-- Witness for C6: finalizing the fresh state resolves immediately with no
effect and no awaited signal. -/
theorem c6_finalize_resolves_witness :
    finalize initialState =
      ({ initialState with cluster := false, actingAsWorker := false }, []) :=
  (c6_finalize_resolves initialState).1 rfl

/-- **C7.** Per-call silence flags never leak between calls: after an
arbitrary first `notify` call (level `l1`, options `o1`), a second call's
deliveries are exactly determined by the second call's own options and level
together with the global configuration — each sink's writes grow by the new
message precisely when the logger exists, the sink is present and the
*second* call's resolved flags do not silence it, and the fallback console
line appears precisely when no logger exists and the *second* call's options
do not silence the console.  `o1` does not occur in any delivery condition. -/
theorem c7_no_silence_leak (st : LoggerState) (hw : st.actingAsWorker = false)
    (l1 l2 : Level) (m1 m2 : String) (o1 o2 : Option LogNotifyOptions) :
    writtenOf (notify l2 m2 o2 (notify l1 m1 o1 st)).consoleTransport =
      writtenOf (notify l1 m1 o1 st).consoleTransport ++
        (if st.logger = true ∧ st.consoleTransport.isSome = true ∧
            (resolveSilence o2 l2 st.syslogSendInfoNotifications).silentConsole = false
          then [(l2, m2)] else []) ∧
    writtenOf (notify l2 m2 o2 (notify l1 m1 o1 st)).fileTransport =
      writtenOf (notify l1 m1 o1 st).fileTransport ++
        (if st.logger = true ∧ st.fileTransport.isSome = true ∧
            (resolveSilence o2 l2 st.syslogSendInfoNotifications).silentFile = false
          then [(l2, m2)] else []) ∧
    writtenOf (notify l2 m2 o2 (notify l1 m1 o1 st)).syslogTransport =
      writtenOf (notify l1 m1 o1 st).syslogTransport ++
        (if st.logger = true ∧ st.syslogTransport.isSome = true ∧
            (resolveSilence o2 l2 st.syslogSendInfoNotifications).silentSysLog = false
          then [(l2, m2)] else []) ∧
    (notify l2 m2 o2 (notify l1 m1 o1 st)).stdout =
      (notify l1 m1 o1 st).stdout ++
        (if st.logger = false ∧ (silentFlagsOf o2).silentConsole = false
          then [levelTag l2 ++ m2] else []) := by
  obtain ⟨hL, hC, hF, hS, hG, hA, -⟩ := notify_preserves_config l1 m1 o1 st
  have hw1 : (notify l1 m1 o1 st).actingAsWorker = false := by rw [hA]; exact hw
  obtain ⟨w1, w2, w3, w4, -⟩ := notify_writes l2 m2 o2 (notify l1 m1 o1 st) hw1
  rw [hL, hC, hG] at w1
  rw [hL, hF, hG] at w2
  rw [hL, hS, hG] at w3
  rw [hL] at w4
  exact ⟨w1, w2, w3, w4⟩

/-- Witness for C7: with all three sinks present, a first call with
`onlyConsole` does not stop a second, option-free call from reaching the
file sink. -/
theorem c7_no_silence_leak_witness :
    writtenOf (notify .error "b" none
        (notify .error "a" (some { onlyConsole := true }) stAllSinks)).fileTransport =
      writtenOf (notify .error "a" (some { onlyConsole := true })
          stAllSinks).fileTransport ++ [(.error, "b")] := by
  have h := (c7_no_silence_leak stAllSinks rfl
    .error .error "a" "b" (some { onlyConsole := true }) none).2.1
  simpa [stAllSinks] using h

/-- **C8.** When no logger was created and the process is not a worker,
`notify` writes exactly one level-tagged line to standard output — except
when the per-call options silence the console, in which case no line is
written. -/
theorem c8_console_fallback (lvl : Level) (m : String) (o : Option LogNotifyOptions)
    (st : LoggerState) (hw : st.actingAsWorker = false) (hl : st.logger = false) :
    (notify lvl m o st).stdout =
      st.stdout ++
        (if (silentFlagsOf o).silentConsole = false then [levelTag lvl ++ m] else []) := by
  have h := (notify_writes lvl m o st hw).2.2.2.1
  simpa [hl] using h

/-- Witness for C8: on the fresh state an error call emits exactly the
tagged line, and a `noConsole` call emits nothing. -/
theorem c8_console_fallback_witness :
    (notify .error "boom" none initialState).stdout = ["[ERROR] boom"] ∧
    (notify .warn "w" (some { noConsole := true }) initialState).stdout = [] := by
  constructor
  · have h := c8_console_fallback .error "boom" none initialState rfl rfl
    simpa using h
  · have h := c8_console_fallback .warn "w" (some { noConsole := true }) initialState rfl rfl
    simpa using h

/-- **C10.** With no logger created and outside a worker, a `notify` whose
options set `onlyFile` or `onlySysLog` (and not `onlyConsole`, which would
win the precedence) produces no output anywhere: the fallback console line
is suppressed exactly as with `noConsole`, no sink write happens, and
nothing is sent over the cluster channel. -/
theorem c10_only_flags_suppress_fallback (lvl : Level) (m : String)
    (o : LogNotifyOptions) (st : LoggerState) (hw : st.actingAsWorker = false)
    (hl : st.logger = false) (hoc : o.onlyConsole = false)
    (ho : o.onlyFile = true ∨ o.onlySysLog = true) :
    (notify lvl m (some o) st).stdout = st.stdout ∧
    writtenOf (notify lvl m (some o) st).consoleTransport = writtenOf st.consoleTransport ∧
    writtenOf (notify lvl m (some o) st).fileTransport = writtenOf st.fileTransport ∧
    writtenOf (notify lvl m (some o) st).syslogTransport = writtenOf st.syslogTransport ∧
    (notify lvl m (some o) st).sent = st.sent := by
  have hsil : (silentFlagsOf (some o)).silentConsole = true := by
    by_cases hof : o.onlyFile
    · simp [silentFlagsOf, hoc, hof]
    · have hos : o.onlySysLog = true := by
        rcases ho with h | h
        · exact absurd h hof
        · exact h
      simp only [Bool.not_eq_true] at hof
      simp [silentFlagsOf, hoc, hof, hos]
  obtain ⟨w1, w2, w3, w4, w5⟩ := notify_writes lvl m (some o) st hw
  refine ⟨?_, ?_, ?_, ?_, w5⟩
  · simpa [hl, hsil] using w4
  · simpa [hl] using w1
  · simpa [hl] using w2
  · simpa [hl] using w3

/-- Witness for C10: on the fresh state an `onlyFile` error call leaves
stdout, every sink and the channel untouched. -/
theorem c10_only_flags_suppress_fallback_witness :
    (notify .error "x" (some { onlyFile := true }) initialState).stdout = [] ∧
    (notify .error "x" (some { onlyFile := true }) initialState).sent = [] := by
  obtain ⟨h1, -, -, -, h5⟩ := c10_only_flags_suppress_fallback .error "x"
    { onlyFile := true } initialState rfl rfl rfl (Or.inl rfl)
  exact ⟨by simpa using h1, by simpa using h5⟩

/-- Defaulting the options to `{}` is semantically transparent to `notify`:
a present all-false options object resolves like no options at all, and the
worker branch defaults either to the same channel payload. -/
theorem notify_options_getD (lvl : Level) (m : String) (o : Option LogNotifyOptions)
    (st : LoggerState) : notify lvl m (some (o.getD {})) st = notify lvl m o st := by
  cases o with
  | none => rfl
  | some a => rfl

/-- **C3.** On a worker process, `notify` performs no local sink write and no
local console output: its entire effect is to append exactly one channel
message carrying the level, the text and the options (defaulted to `{}` when
absent).  The master's channel listener, given that message, re-invokes
`notify` locally with the carried arguments — equivalently, with the worker
call's original arguments — and so each sink configured and unsilenced on
the master receives the message exactly once per worker call. -/
theorem c3_worker_forwarding (lvl : Level) (m : String) (o : Option LogNotifyOptions)
    (wst mst : LoggerState) (hw : wst.actingAsWorker = true) :
    notify lvl m o wst =
      { wst with
          sent := wst.sent ++
            [{ msgType := LOG_REQUEST, level := lvl, message := m,
               options := o.getD {} }] } ∧
    handleClusterMessage
        { msgType := LOG_REQUEST, level := lvl, message := m, options := o.getD {} }
        mst = notify lvl m o mst ∧
    (mst.actingAsWorker = false → mst.logger = true →
      writtenOf (handleClusterMessage
          { msgType := LOG_REQUEST, level := lvl, message := m, options := o.getD {} }
          mst).consoleTransport =
        writtenOf mst.consoleTransport ++
          (if mst.consoleTransport.isSome = true ∧
              (resolveSilence o lvl mst.syslogSendInfoNotifications).silentConsole = false
            then [(lvl, m)] else []) ∧
      writtenOf (handleClusterMessage
          { msgType := LOG_REQUEST, level := lvl, message := m, options := o.getD {} }
          mst).fileTransport =
        writtenOf mst.fileTransport ++
          (if mst.fileTransport.isSome = true ∧
              (resolveSilence o lvl mst.syslogSendInfoNotifications).silentFile = false
            then [(lvl, m)] else []) ∧
      writtenOf (handleClusterMessage
          { msgType := LOG_REQUEST, level := lvl, message := m, options := o.getD {} }
          mst).syslogTransport =
        writtenOf mst.syslogTransport ++
          (if mst.syslogTransport.isSome = true ∧
              (resolveSilence o lvl mst.syslogSendInfoNotifications).silentSysLog = false
            then [(lvl, m)] else [])) := by
  have hmsg : handleClusterMessage
      { msgType := LOG_REQUEST, level := lvl, message := m, options := o.getD {} }
      mst = notify lvl m o mst := by
    rw [handleClusterMessage]
    simp only [if_pos rfl]
    exact notify_options_getD lvl m o mst
  refine ⟨by simp [notify, hw], hmsg, ?_⟩
  intro hmw hml
  rw [hmsg]
  have hro : ∀ x, resolveSilence (some (o.getD {})) lvl x = resolveSilence o lvl x := by
    intro x
    cases o <;> rfl
  obtain ⟨w1, w2, w3, -, -⟩ := notify_writes lvl m o mst hmw
  rw [hml] at w1 w2 w3
  simp only [true_and] at w1 w2 w3
  exact ⟨w1, w2, w3⟩

/-- Witness for C3: a concrete worker call sends exactly one channel message
and, replayed on a master with all sinks, reaches the file sink once. -/
theorem c3_worker_forwarding_witness :
    notify .error "x" none { initialState with actingAsWorker := true } =
      { initialState with
          actingAsWorker := true
          sent := [{ msgType := LOG_REQUEST, level := .error, message := "x",
                     options := {} }] } ∧
    writtenOf (handleClusterMessage
        { msgType := LOG_REQUEST, level := .error, message := "x", options := {} }
        stAllSinks).fileTransport = [(.error, "x")] := by
  obtain ⟨h1, -, h3⟩ := c3_worker_forwarding .error "x" none
    { initialState with actingAsWorker := true } stAllSinks rfl
  refine ⟨by simpa [initialState] using h1, ?_⟩
  obtain ⟨-, h32, -⟩ := h3 rfl rfl
  simpa [stAllSinks, writtenOf] using h32

/-- An initialized sample state carrying a nonzero debug threshold and the
info-to-syslog flag. -/
def stInitialized : LoggerState :=
  { initialState with
      debugLevel := 5
      logger := true
      consoleTransport := some {}
      syslogTransport := some {}
      syslogSendInfoNotifications := true
      cluster := true }

/-- **C4 counterexample.** The claim says every piece of process-wide state
equals its Uninitialized default after `finalize`, the debug threshold and
the `sendInfoNotifications` flag included.  On an initialized state with
threshold 5 and the flag on, `finalize` leaves both exactly as they were:
`done()` (src/index.ts 301-312) nulls the logger, the transports, the
cluster module and the worker flag, but never touches `debugLevel` or
`syslogSendInfoNotifications`. -/
theorem c4_finalize_reset_counterexample :
    (finalize stInitialized).1.debugLevel ≠ initialState.debugLevel ∧
    (finalize stInitialized).1.syslogSendInfoNotifications ≠
      initialState.syslogSendInfoNotifications := by
  constructor <;> decide

/-- **C4 (amended).** After `finalize()` completes in an initialized state
(a logger exists), the sink registry (logger and all three transports), the
cluster module and the worker flag are back at their Uninitialized defaults
— but the debug threshold and the `sendInfoNotifications` flag retain their
pre-finalize values; they are not reset. -/
theorem c4_finalize_resets_registry_and_role (st : LoggerState)
    (h : st.logger = true) :
    (finalize st).1.logger = false ∧
    (finalize st).1.consoleTransport = none ∧
    (finalize st).1.fileTransport = none ∧
    (finalize st).1.syslogTransport = none ∧
    (finalize st).1.cluster = false ∧
    (finalize st).1.actingAsWorker = false ∧
    (finalize st).1.debugLevel = st.debugLevel ∧
    (finalize st).1.syslogSendInfoNotifications = st.syslogSendInfoNotifications := by
  simp [finalize, h]

/-- Witness for C4 (amended): the concrete initialized sample. -/
theorem c4_finalize_resets_registry_and_role_witness :
    (finalize stInitialized).1.logger = false ∧
    (finalize stInitialized).1.syslogTransport = none ∧
    (finalize stInitialized).1.debugLevel = 5 :=
  have h := c4_finalize_resets_registry_and_role stInitialized rfl
  ⟨h.1, h.2.2.2.1, h.2.2.2.2.2.2.1.trans (by decide)⟩

/-- `initDebugLevel` touches only the debug threshold. -/
theorem initDebugLevel_preserves (o : Options) (st : LoggerState) :
    (initDebugLevel o st).logger = st.logger ∧
    (initDebugLevel o st).actingAsWorker = st.actingAsWorker ∧
    (initDebugLevel o st).stdout = st.stdout := by
  cases h : o.debugLevel with
  | none => simp [initDebugLevel, h]
  | some d =>
    simp only [initDebugLevel, h]
    split <;> simp

/-- `initCluster` touches only the cluster fields. -/
theorem initCluster_preserves (o : Options) (b : Bool) (st : LoggerState) :
    (initCluster o b st).logger = st.logger ∧
    (initCluster o b st).actingAsWorker = st.actingAsWorker ∧
    (initCluster o b st).stdout = st.stdout := by
  unfold initCluster
  split <;> simp

/-- `initConsole` touches only the console transport. -/
theorem initConsole_preserves (o : Options) (st : LoggerState) :
    (initConsole o st).logger = st.logger ∧
    (initConsole o st).actingAsWorker = st.actingAsWorker ∧
    (initConsole o st).stdout = st.stdout := by
  unfold initConsole
  split <;> simp

/-- `initFileLog` touches only the file-transport fields. -/
theorem initFileLog_preserves (fl : FileLogOptions) (st : LoggerState) :
    (initFileLog fl st).1.logger = st.logger ∧
    (initFileLog fl st).1.actingAsWorker = st.actingAsWorker ∧
    (initFileLog fl st).1.stdout = st.stdout := by
  cases h : fl.daysToKeep with
  | none => simp [initFileLog, h]
  | some d =>
    simp only [initFileLog, h]
    split <;> simp

/-- `initSysLogProtocol` touches only the syslog fields. -/
theorem initSysLogProtocol_preserves (sl : SysLogOptions) (port : Int)
    (protocol h : String) (st : LoggerState) :
    (initSysLogProtocol sl port protocol h st).1.logger = st.logger ∧
    (initSysLogProtocol sl port protocol h st).1.actingAsWorker = st.actingAsWorker ∧
    (initSysLogProtocol sl port protocol h st).1.stdout = st.stdout := by
  cases hp : sl.protocol with
  | none => simp [initSysLogProtocol, hp]
  | some pr =>
    simp only [initSysLogProtocol, hp]
    split
    · simp
    · split <;> simp

/-- `initSysLog` touches only the syslog fields. -/
theorem initSysLog_preserves (sl : SysLogOptions) (st : LoggerState) :
    (initSysLog sl st).1.logger = st.logger ∧
    (initSysLog sl st).1.actingAsWorker = st.actingAsWorker ∧
    (initSysLog sl st).1.stdout = st.stdout := by
  cases ht : sl.transport with
  | none => simp [initSysLog, ht]
  | some tr =>
    simp only [initSysLog, ht]
    split
    · cases hh : sl.host with
      | none => simp
      | some hs =>
        simp only []
        split
        · simp
        · cases hp : sl.port with
          | none => exact initSysLogProtocol_preserves sl _ _ hs st
          | some p =>
            simp only []
            split
            · simp
            · exact initSysLogProtocol_preserves sl _ _ hs st
    · simp

/-- A failed `initialize` never creates the logger, never flips the worker
flag and never writes output: every rejection returns one of the
intermediate states, all of which agree with the pre-call state on those
fields. -/
theorem initializeLogger_error_preserves (cfg : Options) (b : Bool)
    (st : LoggerState) (he : (initializeLogger cfg b st).2.isSome = true) :
    (initializeLogger cfg b st).1.logger = st.logger ∧
    (initializeLogger cfg b st).1.actingAsWorker = st.actingAsWorker ∧
    (initializeLogger cfg b st).1.stdout = st.stdout := by
  obtain ⟨d1, d2, d3⟩ := initDebugLevel_preserves cfg st
  obtain ⟨k1, k2, k3⟩ := initCluster_preserves cfg b (initDebugLevel cfg st)
  obtain ⟨c1, c2, c3⟩ := initConsole_preserves cfg (initCluster cfg b (initDebugLevel cfg st))
  have hBP : (initConsole cfg (initCluster cfg b (initDebugLevel cfg st))).logger = st.logger ∧
      (initConsole cfg (initCluster cfg b (initDebugLevel cfg st))).actingAsWorker =
        st.actingAsWorker ∧
      (initConsole cfg (initCluster cfg b (initDebugLevel cfg st))).stdout = st.stdout :=
    ⟨c1.trans (k1.trans d1), c2.trans (k2.trans d2), c3.trans (k3.trans d3)⟩
  revert he
  unfold initializeLogger
  by_cases ha : cfg.appName = ""
  · rw [if_pos ha]
    intro _
    exact ⟨rfl, rfl, rfl⟩
  · rw [if_neg ha]
    by_cases hc : (!(initCluster cfg b (initDebugLevel cfg st)).cluster
        || (initCluster cfg b (initDebugLevel cfg st)).clusterIsMaster) = true
    · rw [if_pos hc]
      rcases hfl : cfg.fileLog with _ | fl
      · simp only [hfl]
        rcases hsl : cfg.sysLog with _ | sl
        · simp only [hsl]
          intro he
          simp at he
        · simp only [hsl]
          rcases hs : initSysLog sl
              (initConsole cfg (initCluster cfg b (initDebugLevel cfg st))) with ⟨st2, e2⟩
          obtain ⟨s1, s2, s3⟩ := initSysLog_preserves sl
            (initConsole cfg (initCluster cfg b (initDebugLevel cfg st)))
          rw [hs] at s1 s2 s3
          cases e2 with
          | some e =>
            intro _
            exact ⟨s1.trans hBP.1, s2.trans hBP.2.1, s3.trans hBP.2.2⟩
          | none =>
            intro he
            simp at he
      · simp only [hfl]
        rcases hf : initFileLog fl
            (initConsole cfg (initCluster cfg b (initDebugLevel cfg st))) with ⟨st1, e1⟩
        obtain ⟨f1, f2, f3⟩ := initFileLog_preserves fl
          (initConsole cfg (initCluster cfg b (initDebugLevel cfg st)))
        rw [hf] at f1 f2 f3
        have hst1 : st1.logger = st.logger ∧ st1.actingAsWorker = st.actingAsWorker ∧
            st1.stdout = st.stdout :=
          ⟨f1.trans hBP.1, f2.trans hBP.2.1, f3.trans hBP.2.2⟩
        cases e1 with
        | some e =>
          intro _
          exact hst1
        | none =>
          rcases hsl : cfg.sysLog with _ | sl
          · simp only [hsl]
            intro he
            simp at he
          · simp only [hsl]
            rcases hs : initSysLog sl st1 with ⟨st2, e2⟩
            obtain ⟨s1, s2, s3⟩ := initSysLog_preserves sl st1
            rw [hs] at s1 s2 s3
            cases e2 with
            | some e =>
              intro _
              exact ⟨s1.trans hst1.1, s2.trans hst1.2.1, s3.trans hst1.2.2⟩
            | none =>
              intro he
              simp at he
    · rw [if_neg hc]
      intro he
      simp at he

/-- The spec's failing-configuration scenario: a valid app name, an explicit
debug level, and a `daysToKeep` of 40 (outside `[0, 30]`). -/
def cfgC5 : Options :=
  { appName := "t", debugLevel := some 3, fileLog := some { daysToKeep := some 40 } }

/-- **C5 counterexample.** The claim says a failed `initialize` leaves *no*
global variable different from its pre-call value.  On the spec's own
scenario (`daysToKeep = 40`, here with `debugLevel = 3` added), `initialize`
does reject — but only after it has already stored the debug threshold and
created the console transport, both of which survive the rejection. -/
theorem c5_initialize_partial_state_counterexample :
    (initializeLogger cfgC5 true initialState).2 =
      some "Logger: Invalid days to keep value." ∧
    (initializeLogger cfgC5 true initialState).1.debugLevel ≠ initialState.debugLevel ∧
    (initializeLogger cfgC5 true initialState).1.consoleTransport ≠
      initialState.consoleTransport := by
  refine ⟨?_, ?_, ?_⟩ <;> decide

/-- **C5 (amended).** A configuration that fails validation makes
`initialize` reject with a distinguishable error message, and the `logger`
global is never created on a failing run, so a subsequent `notify` writes
exactly the same fallback console lines as if `initialize` had never been
called — but globals mutated before the failing check (the debug threshold,
the cluster module, already-created transports) may retain their new
values. -/
theorem c5_initialize_failure_keeps_fallback (cfg : Options) (b : Bool)
    (st : LoggerState) (hl : st.logger = false) (hw : st.actingAsWorker = false)
    (he : (initializeLogger cfg b st).2.isSome = true) :
    (initializeLogger cfg b st).1.logger = false ∧
    ∀ (lvl : Level) (m : String) (o : Option LogNotifyOptions),
      (notify lvl m o (initializeLogger cfg b st).1).stdout =
        (notify lvl m o st).stdout := by
  obtain ⟨p1, p2, p3⟩ := initializeLogger_error_preserves cfg b st he
  refine ⟨p1.trans hl, ?_⟩
  intro lvl m o
  obtain ⟨-, -, -, w4, -⟩ := notify_writes lvl m o (initializeLogger cfg b st).1
    (p2.trans hw)
  obtain ⟨-, -, -, w4s, -⟩ := notify_writes lvl m o st hw
  rw [w4, w4s, p3, p1]

/-- Witness for C5 (amended): the concrete failing scenario still
falls back to a console-only `notify`. -/
theorem c5_initialize_failure_keeps_fallback_witness :
    (initializeLogger cfgC5 true initialState).1.logger = false ∧
    (notify .error "x" none (initializeLogger cfgC5 true initialState).1).stdout =
      (notify .error "x" none initialState).stdout :=
  have h := c5_initialize_failure_keeps_fallback cfgC5 true initialState rfl rfl
    (by decide)
  ⟨h.1, h.2 .error "x" none⟩

/-- A syslog configuration exercising the port check: valid app name, host,
transport and protocol, with the given port. -/
def cfgPort (p : Int) : Options :=
  { appName := "t",
    sysLog := some
      { host := some "127.0.0.1", port := some p,
        transport := some "udp", protocol := some "bsd" } }

theorem lowerString_udp : lowerString "udp" = "udp" := by decide

theorem lowerString_bsd : lowerString "bsd" = "bsd" := by decide

/-- How `initializeLogger` evaluates on the port-check configuration. -/
theorem cfgPort_eval (p : Int) :
    initializeLogger (cfgPort p) true initialState =
      if p < 0 ∨ p > 65535 then
        ({ initialState with consoleTransport := some {} },
          some "Logger: Invalid syslog port option.")
      else
        ({ initialState with
            logger := true
            consoleTransport := some {}
            syslogTransport := some {}
            syslogHost := "127.0.0.1"
            syslogPort := if p ≠ 0 then p else 514
            syslogProtocol := "udp"
            syslogType := "BSD" }, none) := by
  have hT : ¬("t" : String) = "" := by decide
  have hH : ¬("127.0.0.1" : String) = "" := by decide
  by_cases h : p < 0 ∨ p > 65535
  · rw [if_pos h]
    simp only [initializeLogger, cfgPort, initDebugLevel, initCluster,
      initConsole, initSysLog, initSysLogProtocol, lowerString_udp, lowerString_bsd]
    rw [if_neg hT, if_neg hH]
    norm_num [h, initialState]
  · rw [if_neg h]
    simp only [initializeLogger, cfgPort, initDebugLevel, initCluster,
      initConsole, initSysLog, initSysLogProtocol, lowerString_udp, lowerString_bsd]
    rw [if_neg hT, if_neg hH]
    norm_num [h, initialState]
    rw [if_neg (show ¬("udp" : String) = "tcp" from by decide),
      if_neg (show ¬("udp" : String) = "tls" from by decide)]

/-- **C9 counterexample.** The claim says every supplied port outside
`[1, 65535]` is rejected.  Port `0` is supplied, passes the
`port < 0 || port > 65535` validation, and is then dropped by the
`port != 0` guard: `initialize` succeeds and the transport-derived default
514 is used instead. -/
theorem c9_port_zero_accepted_counterexample :
    (initializeLogger (cfgPort 0) true initialState).2 = none ∧
    (initializeLogger (cfgPort 0) true initialState).1.syslogPort = 514 := by
  rw [cfgPort_eval 0]
  norm_num

/-- **C9 (amended).** With an otherwise valid syslog configuration,
`initialize` accepts a supplied integer port exactly when it lies in
`[0, 65535]` (rejecting with the distinguishable port error otherwise), uses
every port in `[1, 65535]` as given — and accepts port `0` without using it,
falling back to the transport default (514 for udp). -/
theorem c9_syslog_port_validation (p : Int) :
    ((initializeLogger (cfgPort p) true initialState).2 = none ↔ 0 ≤ p ∧ p ≤ 65535) ∧
    (¬(0 ≤ p ∧ p ≤ 65535) →
      (initializeLogger (cfgPort p) true initialState).2 =
        some "Logger: Invalid syslog port option.") ∧
    (1 ≤ p → p ≤ 65535 →
      (initializeLogger (cfgPort p) true initialState).1.syslogPort = p) := by
  rw [cfgPort_eval p]
  by_cases h : p < 0 ∨ p > 65535
  · rw [if_pos h]
    refine ⟨?_, fun _ => rfl, ?_⟩
    · simp only [Prod.snd]
      constructor
      · intro hx
        exact absurd hx (by simp)
      · intro hx
        omega
    · intro h1 h2
      omega
  · rw [if_neg h]
    push_neg at h
    refine ⟨?_, ?_, ?_⟩
    · simp only [Prod.snd]
      constructor
      · intro _
        omega
      · intro _
        trivial
    · intro hx
      exact absurd ⟨by omega, by omega⟩ hx
    · intro h1 h2
      have hp : p ≠ 0 := by omega
      simp [hp]

/-- Witness for C9 (amended): port 1 is accepted and used. -/
theorem c9_syslog_port_validation_witness :
    (initializeLogger (cfgPort 1) true initialState).2 = none ∧
    (initializeLogger (cfgPort 1) true initialState).1.syslogPort = 1 :=
  have h := c9_syslog_port_validation 1
  ⟨h.1.mpr (by decide), h.2.2 (by decide) (by decide)⟩

end JsLogger
